import Mathlib

/-!
Verification development for the mars-x spatial-math and rigid-body physics
core.  The Cython sources are shallowly embedded over the real numbers:
C `double` values become `ℝ`, struct types become Lean structures, in-place
mutation becomes explicit state passing, and code that raises becomes
`Except`.  The bit-level fast inverse square root has no real-number
semantics; where a definition depends on it, the estimator is taken as an
explicit function parameter.
-/

namespace MarsX

noncomputable section

/-- Vector struct `Vec2` (fields `x`, `y` of C `double`). -/
structure Vec2 where
  x : ℝ
  y : ℝ

/-- Vector struct `Vec3`. -/
structure Vec3 where
  x : ℝ
  y : ℝ
  z : ℝ

/-- Vector struct `Vec4`. -/
structure Vec4 where
  x : ℝ
  y : ℝ
  z : ℝ
  w : ℝ

namespace VectorFast

/-- Embedding of `vec2_div`: scalar division with an explicit zero guard that
yields the zero vector. -/
def vec2_div (v : Vec2) (scalar : ℝ) : Vec2 :=
  if scalar = 0 then { x := 0, y := 0 }
  else { x := v.x / scalar, y := v.y / scalar }

/-- Embedding of `vec3_div`. -/
def vec3_div (v : Vec3) (scalar : ℝ) : Vec3 :=
  if scalar = 0 then { x := 0, y := 0, z := 0 }
  else { x := v.x / scalar, y := v.y / scalar, z := v.z / scalar }

/-- Embedding of `vec4_div`. -/
def vec4_div (v : Vec4) (scalar : ℝ) : Vec4 :=
  if scalar = 0 then { x := 0, y := 0, z := 0, w := 0 }
  else { x := v.x / scalar, y := v.y / scalar, z := v.z / scalar, w := v.w / scalar }

/-- The `Vector2` extension class of the fast vector module. -/
structure Vector2 where
  x : ℝ
  y : ℝ

/-- Embedding of `Vector2.__truediv__`: raising `ZeroDivisionError` is
modelled as `Except.error`. -/
def Vector2.truediv (self : Vector2) (scalar : ℝ) : Except String Vector2 :=
  if scalar = 0 then Except.error "Division by zero"
  else Except.ok { x := self.x / scalar, y := self.y / scalar }

/-- Embedding of `Vector2.length_squared`. -/
def Vector2.length_squared (self : Vector2) : ℝ :=
  self.x * self.x + self.y * self.y

/-- Embedding of `Vector2.normalize` of the fast vector module.  The call to
`fast_invsqrt` (a bit-level routine on IEEE-754 doubles) is abstracted as the
parameter `invsqrt`; the 1e-10 zero guard is taken verbatim from the source. -/
def Vector2.normalize (invsqrt : ℝ → ℝ) (self : Vector2) : Vector2 :=
  if 1e-10 < self.length_squared then
    let inv_len := invsqrt self.length_squared
    { x := self.x * inv_len, y := self.y * inv_len }
  else { x := 0, y := 0 }

end VectorFast

namespace VectorExact

/-- The `Vector2` extension class of the exact (sqrt-based) vector module. -/
structure Vector2 where
  x : ℝ
  y : ℝ

/-- Embedding of the exact `Vector2.length`. -/
def Vector2.length (self : Vector2) : ℝ :=
  Real.sqrt (self.x * self.x + self.y * self.y)

/-- Embedding of the exact `Vector2.normalize`: the guard is `len_val > 0`. -/
def Vector2.normalize (self : Vector2) : Vector2 :=
  let len_val := self.length
  if 0 < len_val then { x := self.x / len_val, y := self.y / len_val }
  else { x := 0, y := 0 }

end VectorExact

/-- The `Entity` extension class: kinematic state of one simulation body,
with the field order of the `rigidbody` declaration file. -/
structure Entity where
  x : ℝ
  y : ℝ
  vx : ℝ
  vy : ℝ
  mass : ℝ
  rotation : ℝ
  active : Bool
  radius : ℝ

namespace RigidBody

/-- Embedding of `apply_force`: guarded on `entity.mass == 0`, otherwise the
velocity gains `force / mass` componentwise. -/
def apply_force (entity : Entity) (force : VectorExact.Vector2) : Entity :=
  if entity.mass = 0 then entity
  else { entity with
    vx := entity.vx + force.x / entity.mass,
    vy := entity.vy + force.y / entity.mass }

/-- Embedding of the first wrap loop of `apply_torque`:
`while rotation >= 2*M_PI: rotation -= 2*M_PI`. -/
def wrapDown (r : ℝ) : ℝ :=
  if 2 * Real.pi ≤ r then wrapDown (r - 2 * Real.pi) else r
termination_by (⌊r / (2 * Real.pi)⌋).toNat
decreasing_by
  have hp : (0 : ℝ) < 2 * Real.pi := by positivity
  have h1 : (r - 2 * Real.pi) / (2 * Real.pi) = r / (2 * Real.pi) - 1 := by
    field_simp
  have h2 : ⌊(r - 2 * Real.pi) / (2 * Real.pi)⌋ = ⌊r / (2 * Real.pi)⌋ - 1 := by
    rw [h1, Int.floor_sub_one]
  have h3 : (1 : ℤ) ≤ ⌊r / (2 * Real.pi)⌋ := by
    apply Int.le_floor.mpr
    push_cast
    rw [le_div_iff₀ hp]
    linarith
  rw [h2]
  omega

/-- Embedding of the second wrap loop of `apply_torque`:
`while rotation < 0.0: rotation += 2*M_PI`. -/
def wrapUp (r : ℝ) : ℝ :=
  if r < 0 then wrapUp (r + 2 * Real.pi) else r
termination_by (⌈-r / (2 * Real.pi)⌉).toNat
decreasing_by
  have hp : (0 : ℝ) < 2 * Real.pi := by positivity
  have h1 : -(r + 2 * Real.pi) / (2 * Real.pi) = -r / (2 * Real.pi) - 1 := by
    field_simp
    ring
  have h2 : ⌈-(r + 2 * Real.pi) / (2 * Real.pi)⌉ = ⌈-r / (2 * Real.pi)⌉ - 1 := by
    rw [h1, Int.ceil_sub_one]
  have h3 : (1 : ℤ) ≤ ⌈-r / (2 * Real.pi)⌉ := by
    apply Int.ceil_pos.mpr
    apply div_pos _ hp
    linarith
  rw [h2]
  omega

/-- Embedding of `apply_torque`: guarded on `entity.mass == 0`; otherwise the
rotation gains `torque / mass` and is then wrapped by the two while loops. -/
def apply_torque (entity : Entity) (torque : ℝ) : Entity :=
  if entity.mass = 0 then entity
  else { entity with
    rotation := wrapUp (wrapDown (entity.rotation + torque / entity.mass)) }

end RigidBody

namespace Collision

/-- Embedding of `check_collision`: circle overlap test on raw coordinates. -/
def check_collision (x1 y1 radius1 x2 y2 radius2 : ℝ) : Prop :=
  let dx := x2 - x1
  let dy := y2 - y1
  let distance_sq := dx * dx + dy * dy
  let combined_radius := radius1 + radius2
  distance_sq ≤ combined_radius * combined_radius

/-- Embedding of `_handle_collision`: the in-place mutation of the two
entities is returned as a pair (first component `entity1`, second
`entity2`). -/
def handle_collision (entity1 entity2 : Entity) (response_coef : ℝ) :
    Entity × Entity :=
  let dx := entity2.x - entity1.x
  let dy := entity2.y - entity1.y
  let distance_sq := dx * dx + dy * dy
  if distance_sq < 0.0001 then
    ({ entity1 with x := entity1.x - 0.1 }, { entity2 with x := entity2.x + 0.1 })
  else
    let distance := Real.sqrt distance_sq
    let overlap := entity1.radius + entity2.radius - distance
    let nx := dx / distance
    let ny := dy / distance
    if 0 < entity1.mass ∧ 0 < entity2.mass then
      let total_mass := entity1.mass + entity2.mass
      let entity1_ratio := entity2.mass / total_mass
      let entity2_ratio := entity1.mass / total_mass
      let e1 := { entity1 with
        x := entity1.x - nx * overlap * entity1_ratio,
        y := entity1.y - ny * overlap * entity1_ratio }
      let e2 := { entity2 with
        x := entity2.x + nx * overlap * entity2_ratio,
        y := entity2.y + ny * overlap * entity2_ratio }
      let rvx := e2.vx - e1.vx
      let rvy := e2.vy - e1.vy
      let vel_along_normal := rvx * nx + rvy * ny
      if 0 < vel_along_normal then (e1, e2)
      else
        let impulse_scalar :=
          -(1 + response_coef) * vel_along_normal /
            (1 / entity1.mass + 1 / entity2.mass)
        let impulse_x := impulse_scalar * nx
        let impulse_y := impulse_scalar * ny
        ({ e1 with
            vx := e1.vx - impulse_x / entity1.mass,
            vy := e1.vy - impulse_y / entity1.mass },
          { e2 with
            vx := e2.vx + impulse_x / entity2.mass,
            vy := e2.vy + impulse_y / entity2.mass })
    else if 0 < entity1.mass then
      let e1 := { entity1 with
        x := entity1.x - nx * overlap,
        y := entity1.y - ny * overlap }
      let dot := e1.vx * nx + e1.vy * ny
      ({ e1 with
          vx := response_coef * (e1.vx - 2 * dot * nx),
          vy := response_coef * (e1.vy - 2 * dot * ny) }, entity2)
    else if 0 < entity2.mass then
      let e2 := { entity2 with
        x := entity2.x + nx * overlap,
        y := entity2.y + ny * overlap }
      let dot := e2.vx * nx + e2.vy * ny
      (entity1, { e2 with
          vx := response_coef * (e2.vx - 2 * dot * nx),
          vy := response_coef * (e2.vy - 2 * dot * ny) })
    else (entity1, entity2)

/-- One inner-loop iteration of `resolve_collisions` over the pair `(i, j)`:
read both entities, skip when `entity2` is inactive or the circles do not
overlap, otherwise run `_handle_collision` and write both entities back. -/
def pair_step (response_coef : ℝ) (es : List Entity) (i j : ℕ) : List Entity :=
  match es.get? i, es.get? j with
  | some entity1, some entity2 =>
    if entity2.active then
      let dx := entity2.x - entity1.x
      let dy := entity2.y - entity1.y
      let distance_sq := dx * dx + dy * dy
      let combined_radius := entity1.radius + entity2.radius
      if combined_radius * combined_radius < distance_sq then es
      else
        let p := handle_collision entity1 entity2 response_coef
        (es.set i p.1).set j p.2
    else es
  | _, _ => es

/-- The inner `for j in range(i+1, n)` loop of `resolve_collisions`. -/
def loop_inner (response_coef : ℝ) (i : ℕ) : List ℕ → List Entity → List Entity
  | [], es => es
  | j :: js, es => loop_inner response_coef i js (pair_step response_coef es i j)

/-- The outer `for i in range(n)` loop of `resolve_collisions`: inactive
`entity1` rows are skipped before the inner loop runs. -/
def loop_outer (response_coef : ℝ) : List ℕ → List Entity → List Entity
  | [], es => es
  | i :: is, es =>
    match es.get? i with
    | some entity1 =>
      if entity1.active then
        loop_outer response_coef is
          (loop_inner response_coef i ((List.range es.length).drop (i + 1)) es)
      else loop_outer response_coef is es
    | none => loop_outer response_coef is es

/-- Embedding of `resolve_collisions` over the entity list. -/
def resolve_collisions (entities : List Entity) (response_coef : ℝ) :
    List Entity :=
  loop_outer response_coef (List.range entities.length) entities

end Collision

/-- The `Matrix4` extension class: 16 cells in row-major order, cell `mIJ`
holding row `I`, column `J` (flat index `I*4 + J` in the source). -/
@[ext]
structure Matrix4 where
  m00 : ℝ
  m01 : ℝ
  m02 : ℝ
  m03 : ℝ
  m10 : ℝ
  m11 : ℝ
  m12 : ℝ
  m13 : ℝ
  m20 : ℝ
  m21 : ℝ
  m22 : ℝ
  m23 : ℝ
  m30 : ℝ
  m31 : ℝ
  m32 : ℝ
  m33 : ℝ

namespace Matrix4

/-- Embedding of `Matrix4.__init__`: the identity matrix. -/
def identity : Matrix4 :=
  ⟨1, 0, 0, 0,
   0, 1, 0, 0,
   0, 0, 1, 0,
   0, 0, 0, 1⟩

/-- Embedding of the matrix-matrix case of `Matrix4.__mul__`: cell `(i, j)`
accumulates `self[i][k] * other[k][j]` for `k = 0..3`. -/
def mul (self other : Matrix4) : Matrix4 where
  m00 := self.m00 * other.m00 + self.m01 * other.m10 + self.m02 * other.m20 + self.m03 * other.m30
  m01 := self.m00 * other.m01 + self.m01 * other.m11 + self.m02 * other.m21 + self.m03 * other.m31
  m02 := self.m00 * other.m02 + self.m01 * other.m12 + self.m02 * other.m22 + self.m03 * other.m32
  m03 := self.m00 * other.m03 + self.m01 * other.m13 + self.m02 * other.m23 + self.m03 * other.m33
  m10 := self.m10 * other.m00 + self.m11 * other.m10 + self.m12 * other.m20 + self.m13 * other.m30
  m11 := self.m10 * other.m01 + self.m11 * other.m11 + self.m12 * other.m21 + self.m13 * other.m31
  m12 := self.m10 * other.m02 + self.m11 * other.m12 + self.m12 * other.m22 + self.m13 * other.m32
  m13 := self.m10 * other.m03 + self.m11 * other.m13 + self.m12 * other.m23 + self.m13 * other.m33
  m20 := self.m20 * other.m00 + self.m21 * other.m10 + self.m22 * other.m20 + self.m23 * other.m30
  m21 := self.m20 * other.m01 + self.m21 * other.m11 + self.m22 * other.m21 + self.m23 * other.m31
  m22 := self.m20 * other.m02 + self.m21 * other.m12 + self.m22 * other.m22 + self.m23 * other.m32
  m23 := self.m20 * other.m03 + self.m21 * other.m13 + self.m22 * other.m23 + self.m23 * other.m33
  m30 := self.m30 * other.m00 + self.m31 * other.m10 + self.m32 * other.m20 + self.m33 * other.m30
  m31 := self.m30 * other.m01 + self.m31 * other.m11 + self.m32 * other.m21 + self.m33 * other.m31
  m32 := self.m30 * other.m02 + self.m31 * other.m12 + self.m32 * other.m22 + self.m33 * other.m32
  m33 := self.m30 * other.m03 + self.m31 * other.m13 + self.m32 * other.m23 + self.m33 * other.m33

/-- Embedding of `Matrix4.determinant`: cofactor expansion along row 0,
with the four first-row cofactors exactly as in the source. -/
def determinant (self : Matrix4) : ℝ :=
  let cofactor00 :=
    self.m11 * (self.m22 * self.m33 - self.m23 * self.m32) -
    self.m12 * (self.m21 * self.m33 - self.m23 * self.m31) +
    self.m13 * (self.m21 * self.m32 - self.m22 * self.m31)
  let cofactor01 :=
    self.m10 * (self.m22 * self.m33 - self.m23 * self.m32) -
    self.m12 * (self.m20 * self.m33 - self.m23 * self.m30) +
    self.m13 * (self.m20 * self.m32 - self.m22 * self.m30)
  let cofactor02 :=
    self.m10 * (self.m21 * self.m33 - self.m23 * self.m31) -
    self.m11 * (self.m20 * self.m33 - self.m23 * self.m30) +
    self.m13 * (self.m20 * self.m31 - self.m21 * self.m30)
  let cofactor03 :=
    self.m10 * (self.m21 * self.m32 - self.m22 * self.m31) -
    self.m11 * (self.m20 * self.m32 - self.m22 * self.m30) +
    self.m12 * (self.m20 * self.m31 - self.m21 * self.m30)
  self.m00 * cofactor00 - self.m01 * cofactor01 +
    self.m02 * cofactor02 - self.m03 * cofactor03

/-- The success path of `Matrix4.inverse`: the adjugate cells scaled by
`inv_det = 1.0 / det`, transcribed cell by cell from the source. -/
def invMat (self : Matrix4) : Matrix4 :=
  let inv_det := 1 / self.determinant
  { m00 := inv_det *
      (self.m11 * (self.m22 * self.m33 - self.m23 * self.m32) -
       self.m12 * (self.m21 * self.m33 - self.m23 * self.m31) +
       self.m13 * (self.m21 * self.m32 - self.m22 * self.m31))
    m01 := -inv_det *
      (self.m01 * (self.m22 * self.m33 - self.m23 * self.m32) -
       self.m02 * (self.m21 * self.m33 - self.m23 * self.m31) +
       self.m03 * (self.m21 * self.m32 - self.m22 * self.m31))
    m02 := inv_det *
      (self.m01 * (self.m12 * self.m33 - self.m13 * self.m32) -
       self.m02 * (self.m11 * self.m33 - self.m13 * self.m31) +
       self.m03 * (self.m11 * self.m32 - self.m12 * self.m31))
    m03 := -inv_det *
      (self.m01 * (self.m12 * self.m23 - self.m13 * self.m22) -
       self.m02 * (self.m11 * self.m23 - self.m13 * self.m21) +
       self.m03 * (self.m11 * self.m22 - self.m12 * self.m21))
    m10 := -inv_det *
      (self.m10 * (self.m22 * self.m33 - self.m23 * self.m32) -
       self.m12 * (self.m20 * self.m33 - self.m23 * self.m30) +
       self.m13 * (self.m20 * self.m32 - self.m22 * self.m30))
    m11 := inv_det *
      (self.m00 * (self.m22 * self.m33 - self.m23 * self.m32) -
       self.m02 * (self.m20 * self.m33 - self.m23 * self.m30) +
       self.m03 * (self.m20 * self.m32 - self.m22 * self.m30))
    m12 := -inv_det *
      (self.m00 * (self.m12 * self.m33 - self.m13 * self.m32) -
       self.m02 * (self.m10 * self.m33 - self.m13 * self.m30) +
       self.m03 * (self.m10 * self.m32 - self.m12 * self.m30))
    m13 := inv_det *
      (self.m00 * (self.m12 * self.m23 - self.m13 * self.m22) -
       self.m02 * (self.m10 * self.m23 - self.m13 * self.m20) +
       self.m03 * (self.m10 * self.m22 - self.m12 * self.m20))
    m20 := inv_det *
      (self.m10 * (self.m21 * self.m33 - self.m23 * self.m31) -
       self.m11 * (self.m20 * self.m33 - self.m23 * self.m30) +
       self.m13 * (self.m20 * self.m31 - self.m21 * self.m30))
    m21 := -inv_det *
      (self.m00 * (self.m21 * self.m33 - self.m23 * self.m31) -
       self.m01 * (self.m20 * self.m33 - self.m23 * self.m30) +
       self.m03 * (self.m20 * self.m31 - self.m21 * self.m30))
    m22 := inv_det *
      (self.m00 * (self.m11 * self.m33 - self.m13 * self.m31) -
       self.m01 * (self.m10 * self.m33 - self.m13 * self.m30) +
       self.m03 * (self.m10 * self.m31 - self.m11 * self.m30))
    m23 := -inv_det *
      (self.m00 * (self.m11 * self.m23 - self.m13 * self.m21) -
       self.m01 * (self.m10 * self.m23 - self.m13 * self.m20) +
       self.m03 * (self.m10 * self.m21 - self.m11 * self.m20))
    m30 := -inv_det *
      (self.m10 * (self.m21 * self.m32 - self.m22 * self.m31) -
       self.m11 * (self.m20 * self.m32 - self.m22 * self.m30) +
       self.m12 * (self.m20 * self.m31 - self.m21 * self.m30))
    m31 := inv_det *
      (self.m00 * (self.m21 * self.m32 - self.m22 * self.m31) -
       self.m01 * (self.m20 * self.m32 - self.m22 * self.m30) +
       self.m02 * (self.m20 * self.m31 - self.m21 * self.m30))
    m32 := -inv_det *
      (self.m00 * (self.m11 * self.m32 - self.m12 * self.m31) -
       self.m01 * (self.m10 * self.m32 - self.m12 * self.m30) +
       self.m02 * (self.m10 * self.m31 - self.m11 * self.m30))
    m33 := inv_det *
      (self.m00 * (self.m11 * self.m22 - self.m12 * self.m21) -
       self.m01 * (self.m10 * self.m22 - self.m12 * self.m20) +
       self.m02 * (self.m10 * self.m21 - self.m11 * self.m20)) }

/-- Embedding of `Matrix4.inverse`: the `|det| < 1e-10` guard raises
`ValueError` (the spec calls this failure a DomainError), modelled as
`Except.error`; otherwise the adjugate-based inverse is returned. -/
def inverse (self : Matrix4) : Except String Matrix4 :=
  if |self.determinant| < 1e-10 then
    Except.error "Matrix is not invertible (determinant is close to zero)"
  else Except.ok self.invMat

/-- Cellwise closeness of two matrices up to a tolerance, used to state the
`M * inverse(M) ≈ identity` claim. -/
def cellwise_close (a b : Matrix4) (eps : ℝ) : Prop :=
  |a.m00 - b.m00| ≤ eps ∧ |a.m01 - b.m01| ≤ eps ∧
  |a.m02 - b.m02| ≤ eps ∧ |a.m03 - b.m03| ≤ eps ∧
  |a.m10 - b.m10| ≤ eps ∧ |a.m11 - b.m11| ≤ eps ∧
  |a.m12 - b.m12| ≤ eps ∧ |a.m13 - b.m13| ≤ eps ∧
  |a.m20 - b.m20| ≤ eps ∧ |a.m21 - b.m21| ≤ eps ∧
  |a.m22 - b.m22| ≤ eps ∧ |a.m23 - b.m23| ≤ eps ∧
  |a.m30 - b.m30| ≤ eps ∧ |a.m31 - b.m31| ≤ eps ∧
  |a.m32 - b.m32| ≤ eps ∧ |a.m33 - b.m33| ≤ eps

end Matrix4

end

end MarsX

section ClaimsVectors

open MarsX

/-- Claim C2, counterexample: scalar division of a 2D vector by exactly zero
through `Vector2.__truediv__` raises `ZeroDivisionError` instead of returning
the zero vector, refuting the claim that division by zero never raises. -/
theorem C2_counterexample :
    VectorFast.Vector2.truediv { x := 1, y := 2 } 0 =
      Except.error "Division by zero" := by
  simp [VectorFast.Vector2.truediv]

/-- Claim C2, amended: the struct-level division helpers `vec2_div`,
`vec3_div`, `vec4_div` return the zero vector of matching dimension on a
divisor exactly equal to zero, without error; the class-level
`Vector2.__truediv__` raises `ZeroDivisionError` on a zero scalar. -/
theorem C2_div_by_zero (a : Vec2) (b : Vec3) (c : Vec4)
    (v : VectorFast.Vector2) :
    VectorFast.vec2_div a 0 = { x := 0, y := 0 } ∧
    VectorFast.vec3_div b 0 = { x := 0, y := 0, z := 0 } ∧
    VectorFast.vec4_div c 0 = { x := 0, y := 0, z := 0, w := 0 } ∧
    VectorFast.Vector2.truediv v 0 = Except.error "Division by zero" := by
  refine ⟨?_, ?_, ?_, ?_⟩ <;>
    simp [VectorFast.vec2_div, VectorFast.vec3_div, VectorFast.vec4_div,
      VectorFast.Vector2.truediv]

end ClaimsVectors

section WrapLemmas

open MarsX

/-- The first wrap loop terminates with a value strictly below `2*pi`. -/
theorem wrapDown_lt (r : ℝ) : RigidBody.wrapDown r < 2 * Real.pi := by
  induction r using RigidBody.wrapDown.induct with
  | case1 r h ih =>
    rw [RigidBody.wrapDown, if_pos h]
    exact ih
  | case2 r h =>
    rw [RigidBody.wrapDown, if_neg h]
    exact not_le.mp h

/-- The second wrap loop terminates with a nonnegative value. -/
theorem wrapUp_nonneg (r : ℝ) : 0 ≤ RigidBody.wrapUp r := by
  induction r using RigidBody.wrapUp.induct with
  | case1 r h ih =>
    rw [RigidBody.wrapUp, if_pos h]
    exact ih
  | case2 r h =>
    rw [RigidBody.wrapUp, if_neg h]
    exact not_lt.mp h

/-- The second wrap loop preserves the strict upper bound `2*pi`. -/
theorem wrapUp_lt (r : ℝ) : r < 2 * Real.pi → RigidBody.wrapUp r < 2 * Real.pi := by
  induction r using RigidBody.wrapUp.induct with
  | case1 r h ih =>
    intro _
    rw [RigidBody.wrapUp, if_pos h]
    apply ih
    have hp : (0 : ℝ) < 2 * Real.pi := by positivity
    linarith
  | case2 r h =>
    intro hlt
    rw [RigidBody.wrapUp, if_neg h]
    exact hlt

end WrapLemmas

section ClaimsRigidBody

open MarsX

/-- Claim C1, counterexample: an entity with mass `-1` (which is `<= 0`) is
not immovable — `apply_force` with force `(1, 0)` changes its x-velocity from
`0` to `-1`, because the code guards only on `mass == 0`. -/
theorem C1_counterexample :
    ((⟨0, 0, 0, 0, -1, 0, true, 0⟩ : Entity)).mass ≤ 0 ∧
    (RigidBody.apply_force ⟨0, 0, 0, 0, -1, 0, true, 0⟩ ⟨1, 0⟩).vx = -1 ∧
    ((⟨0, 0, 0, 0, -1, 0, true, 0⟩ : Entity)).vx = 0 := by
  refine ⟨by norm_num, ?_, rfl⟩
  rw [RigidBody.apply_force]
  norm_num

/-- Claim C1, amended: `apply_force` and `apply_torque` are no-ops exactly for
entities with mass equal to zero; for every entity with nonzero mass (positive
or negative), `apply_force` adds `force/mass` to the velocity components and
`apply_torque` adds `torque/mass` to the rotation and then wraps it by the two
while loops. -/
theorem C1_mass_guard (e : Entity) (f : VectorExact.Vector2) (t : ℝ) :
    (e.mass = 0 →
      RigidBody.apply_force e f = e ∧ RigidBody.apply_torque e t = e) ∧
    (e.mass ≠ 0 →
      RigidBody.apply_force e f =
        { e with vx := e.vx + f.x / e.mass, vy := e.vy + f.y / e.mass } ∧
      RigidBody.apply_torque e t =
        { e with rotation :=
            RigidBody.wrapUp (RigidBody.wrapDown (e.rotation + t / e.mass)) }) := by
  constructor
  · intro h
    rw [RigidBody.apply_force, RigidBody.apply_torque]
    rw [if_pos h, if_pos h]
    exact ⟨rfl, rfl⟩
  · intro h
    rw [RigidBody.apply_force, RigidBody.apply_torque]
    rw [if_neg h, if_neg h]
    exact ⟨rfl, rfl⟩

/-- Claim C1, witness: a concrete entity of mass 2 hit by force `(3, 4)`. -/
theorem C1_witness :
    ((⟨0, 0, 0, 0, 2, 0, true, 0⟩ : Entity)).mass ≠ 0 ∧
    RigidBody.apply_force ⟨0, 0, 0, 0, 2, 0, true, 0⟩ ⟨3, 4⟩ =
      ⟨0, 0, 0 + 3 / 2, 0 + 4 / 2, 2, 0, true, 0⟩ :=
  ⟨by norm_num,
    ((C1_mass_guard ⟨0, 0, 0, 0, 2, 0, true, 0⟩ ⟨3, 4⟩ 0).2 (by norm_num)).1⟩

/-- Claim C9: for every entity with positive mass, the rotation produced by
`apply_torque` lies in the half-open interval `[0, 2*pi)`. -/
theorem C9_rotation_in_range (e : Entity) (t : ℝ) (h : 0 < e.mass) :
    0 ≤ (RigidBody.apply_torque e t).rotation ∧
    (RigidBody.apply_torque e t).rotation < 2 * Real.pi := by
  rw [RigidBody.apply_torque, if_neg h.ne']
  exact ⟨wrapUp_nonneg _, wrapUp_lt _ (wrapDown_lt _)⟩

/-- Claim C9, witness: a concrete entity of mass 1 receiving torque 1. -/
theorem C9_witness :
    (0 : ℝ) < 1 ∧
    (0 ≤ (RigidBody.apply_torque ⟨0, 0, 0, 0, 1, 0, true, 0⟩ 1).rotation ∧
     (RigidBody.apply_torque ⟨0, 0, 0, 0, 1, 0, true, 0⟩ 1).rotation <
       2 * Real.pi) :=
  ⟨by norm_num, C9_rotation_in_range ⟨0, 0, 0, 0, 1, 0, true, 0⟩ 1 (by norm_num)⟩

end ClaimsRigidBody

section ClaimsNormalize

open MarsX

/-- Claim C3, counterexample: in the exact vector module, the vector
`(1e-6, 0)` has squared length `1e-12 <= 1e-10`, yet `normalize` returns the
unit vector `(1, 0)` rather than the zero vector, because that module guards
on `length > 0` and not on the 1e-10 squared-length threshold. -/
theorem C3_counterexample :
    ((1 : ℝ) / 1000000) * ((1 : ℝ) / 1000000) + 0 * 0 ≤ 1e-10 ∧
    VectorExact.Vector2.normalize ⟨1 / 1000000, 0⟩ =
      (⟨1, 0⟩ : VectorExact.Vector2) ∧
    (⟨1, 0⟩ : VectorExact.Vector2) ≠ (⟨0, 0⟩ : VectorExact.Vector2) := by
  have hlen : VectorExact.Vector2.length ⟨1 / 1000000, 0⟩ = 1 / 1000000 := by
    rw [VectorExact.Vector2.length]
    rw [show ((1 : ℝ) / 1000000) * ((1 : ℝ) / 1000000) + 0 * 0 =
        ((1 : ℝ) / 1000000) ^ 2 by ring]
    exact Real.sqrt_sq (by norm_num)
  refine ⟨by norm_num, ?_, ?_⟩
  · rw [VectorExact.Vector2.normalize]
    simp only [hlen]
    rw [if_pos (by norm_num)]
    norm_num
  · intro h
    exact one_ne_zero (congrArg VectorExact.Vector2.x h)

/-- Claim C3, amended: in the exact vector module, `normalize` returns the
zero vector exactly for vectors of length zero (not below the 1e-10
squared-length threshold), and every vector of positive length — including
those with squared length below 1e-10 — normalizes to length exactly 1 (hence
within 1e-6 of 1), with no NaN or division by zero; in the fast vector module
the 1e-10 threshold does apply: a squared length at most 1e-10 yields the zero
vector regardless of the inverse-square-root estimator. -/
theorem C3_normalize_guard (v : VectorExact.Vector2) (invsqrt : ℝ → ℝ)
    (w : VectorFast.Vector2) :
    (0 < v.length → (VectorExact.Vector2.normalize v).length = 1) ∧
    (v.length = 0 →
      VectorExact.Vector2.normalize v = (⟨0, 0⟩ : VectorExact.Vector2)) ∧
    (VectorFast.Vector2.length_squared w ≤ 1e-10 →
      VectorFast.Vector2.normalize invsqrt w = (⟨0, 0⟩ : VectorFast.Vector2)) := by
  refine ⟨?_, ?_, ?_⟩
  · intro h
    have hS : 0 < v.x * v.x + v.y * v.y := by
      have := h
      rw [VectorExact.Vector2.length] at this
      exact Real.sqrt_pos.mp this
    have hmul : v.length * v.length = v.x * v.x + v.y * v.y := by
      rw [VectorExact.Vector2.length]
      exact Real.mul_self_sqrt hS.le
    rw [VectorExact.Vector2.normalize]
    rw [if_pos h]
    rw [VectorExact.Vector2.length]
    rw [show v.x / v.length * (v.x / v.length) + v.y / v.length * (v.y / v.length) =
        (v.x * v.x + v.y * v.y) / (v.length * v.length) by ring]
    rw [hmul, div_self hS.ne', Real.sqrt_one]
  · intro h
    rw [VectorExact.Vector2.normalize]
    rw [if_neg (by rw [h]; exact lt_irrefl 0)]
  · intro h
    rw [VectorFast.Vector2.normalize]
    rw [if_neg (not_lt.mpr h)]

/-- Claim C3, witness: the vector `(3, 4)` has positive length and its exact
normalization has length exactly 1; the fast-mode zero vector stays zero. -/
theorem C3_witness :
    0 < VectorExact.Vector2.length ⟨3, 4⟩ ∧
    (VectorExact.Vector2.normalize ⟨3, 4⟩).length = 1 ∧
    VectorFast.Vector2.normalize (fun _ => 0) ⟨0, 0⟩ =
      (⟨0, 0⟩ : VectorFast.Vector2) := by
  have h : 0 < VectorExact.Vector2.length ⟨3, 4⟩ := by
    rw [VectorExact.Vector2.length]
    exact Real.sqrt_pos.mpr (by norm_num)
  exact ⟨h, (C3_normalize_guard ⟨3, 4⟩ (fun _ => 0) ⟨0, 0⟩).1 h,
    (C3_normalize_guard ⟨3, 4⟩ (fun _ => 0) ⟨0, 0⟩).2.2
      (by rw [VectorFast.Vector2.length_squared]; norm_num)⟩

end ClaimsNormalize

section MatrixLemmas

open MarsX

set_option maxHeartbeats 2000000 in
/-- For a matrix with nonzero determinant the source's adjugate-based inverse
is an exact right inverse: the cofactor formulas are algebraically correct. -/
theorem mul_invMat_eq_identity (M : Matrix4) (h : M.determinant ≠ 0) :
    M.mul M.invMat = Matrix4.identity := by
  simp only [Matrix4.determinant] at h
  apply Matrix4.ext <;>
    (simp only [Matrix4.mul, Matrix4.invMat, Matrix4.identity,
      Matrix4.determinant]
     field_simp
     ring)

end MatrixLemmas

section ClaimsMatrix

open MarsX

/-- Claim C5: `Matrix4.inverse` fails (raises, modelled as `Except.error`)
exactly when `|determinant| < 1e-10`; for `|determinant| >= 1e-10` it returns
a matrix and raises nothing. -/
theorem C5_inverse_guard (M : Matrix4) :
    (M.inverse =
        Except.error "Matrix is not invertible (determinant is close to zero)" ↔
      |M.determinant| < 1e-10) ∧
    (1e-10 ≤ |M.determinant| → M.inverse = Except.ok M.invMat) := by
  refine ⟨⟨?_, ?_⟩, ?_⟩
  · intro h
    by_contra hc
    rw [Matrix4.inverse, if_neg hc] at h
    exact Except.noConfusion h
  · intro h
    rw [Matrix4.inverse, if_pos h]
  · intro h
    rw [Matrix4.inverse, if_neg (not_lt.mpr h)]

/-- Claim C5, witness: the all-zero matrix has determinant 0 and `inverse`
fails on it; the identity matrix has determinant 1 and `inverse` succeeds. -/
theorem C5_witness :
    |Matrix4.determinant ⟨0, 0, 0, 0, 0, 0, 0, 0, 0, 0, 0, 0, 0, 0, 0, 0⟩| <
      1e-10 ∧
    Matrix4.inverse ⟨0, 0, 0, 0, 0, 0, 0, 0, 0, 0, 0, 0, 0, 0, 0, 0⟩ =
      Except.error "Matrix is not invertible (determinant is close to zero)" ∧
    1e-10 ≤ |Matrix4.determinant Matrix4.identity| ∧
    Matrix4.inverse Matrix4.identity = Except.ok (Matrix4.invMat Matrix4.identity) := by
  have h0 : |Matrix4.determinant ⟨0, 0, 0, 0, 0, 0, 0, 0, 0, 0, 0, 0, 0, 0, 0, 0⟩| <
      1e-10 := by
    simp only [Matrix4.determinant]
    norm_num
  have h1 : (1e-10 : ℝ) ≤ |Matrix4.determinant Matrix4.identity| := by
    simp only [Matrix4.determinant, Matrix4.identity]
    norm_num
  exact ⟨h0, (C5_inverse_guard _).1.mpr h0, h1, (C5_inverse_guard _).2 h1⟩

/-- Claim C6: for every matrix with `|determinant| >= 1e-10`, `inverse`
succeeds and the product `M * M.inverse()` matches the identity matrix within
1e-6 in every cell (over the reals it is exactly the identity). -/
theorem C6_mul_inverse_approx_identity (M : Matrix4)
    (h : 1e-10 ≤ |M.determinant|) :
    M.inverse = Except.ok M.invMat ∧
    Matrix4.cellwise_close (M.mul M.invMat) Matrix4.identity 1e-6 := by
  have hdet : M.determinant ≠ 0 := by
    intro h0
    rw [h0] at h
    norm_num at h
  refine ⟨?_, ?_⟩
  · rw [Matrix4.inverse, if_neg (not_lt.mpr h)]
  · rw [mul_invMat_eq_identity M hdet]
    simp only [Matrix4.cellwise_close]
    norm_num

/-- Claim C6, witness: the identity matrix is invertible and its product with
its inverse is cellwise within 1e-6 of the identity. -/
theorem C6_witness :
    (1e-10 : ℝ) ≤ |Matrix4.determinant Matrix4.identity| ∧
    (Matrix4.inverse Matrix4.identity =
        Except.ok (Matrix4.invMat Matrix4.identity) ∧
      Matrix4.cellwise_close
        (Matrix4.mul Matrix4.identity (Matrix4.invMat Matrix4.identity))
        Matrix4.identity 1e-6) := by
  have h1 : (1e-10 : ℝ) ≤ |Matrix4.determinant Matrix4.identity| := by
    simp only [Matrix4.determinant, Matrix4.identity]
    norm_num
  exact ⟨h1, C6_mul_inverse_approx_identity Matrix4.identity h1⟩

end ClaimsMatrix

section CollisionLemmas

open MarsX

/-- Branch lemma for `_handle_collision` when both entities are movable: the
positional split by mass ratio and the normal impulse, with the geometric
quantities named by defining equations. -/
theorem handle_collision_both_movable (entity1 entity2 : Entity)
    (coef d nx ny vn imp : ℝ)
    (hdeg : ¬((entity2.x - entity1.x) * (entity2.x - entity1.x) +
        (entity2.y - entity1.y) * (entity2.y - entity1.y) < 0.0001))
    (hm1 : 0 < entity1.mass) (hm2 : 0 < entity2.mass)
    (hd : d = Real.sqrt ((entity2.x - entity1.x) * (entity2.x - entity1.x) +
        (entity2.y - entity1.y) * (entity2.y - entity1.y)))
    (hnx : nx = (entity2.x - entity1.x) / d)
    (hny : ny = (entity2.y - entity1.y) / d)
    (hvn : vn = (entity2.vx - entity1.vx) * nx + (entity2.vy - entity1.vy) * ny)
    (himp : imp = -(1 + coef) * vn / (1 / entity1.mass + 1 / entity2.mass))
    (happr : ¬(0 < vn)) :
    Collision.handle_collision entity1 entity2 coef =
      ({ entity1 with
          x := entity1.x - nx * (entity1.radius + entity2.radius - d) *
            (entity2.mass / (entity1.mass + entity2.mass)),
          y := entity1.y - ny * (entity1.radius + entity2.radius - d) *
            (entity2.mass / (entity1.mass + entity2.mass)),
          vx := entity1.vx - imp * nx / entity1.mass,
          vy := entity1.vy - imp * ny / entity1.mass },
        { entity2 with
          x := entity2.x + nx * (entity1.radius + entity2.radius - d) *
            (entity1.mass / (entity1.mass + entity2.mass)),
          y := entity2.y + ny * (entity1.radius + entity2.radius - d) *
            (entity1.mass / (entity1.mass + entity2.mass)),
          vx := entity2.vx + imp * nx / entity2.mass,
          vy := entity2.vy + imp * ny / entity2.mass }) := by
  subst hnx
  subst hny
  subst hd
  subst hvn
  subst himp
  simp only [Collision.handle_collision]
  rw [if_neg hdeg, if_pos ⟨hm1, hm2⟩, if_neg happr]

end CollisionLemmas

section ClaimsCollision

open MarsX

/-- Claim C10: `_handle_collision` on two entities that both have mass `<= 0`
and squared center distance at least 1e-4 leaves both entities completely
unchanged — an overlapping pair of immovable bodies is never separated. -/
theorem C10_immovable_pair_unchanged (entity1 entity2 : Entity) (coef : ℝ)
    (hm1 : entity1.mass ≤ 0) (hm2 : entity2.mass ≤ 0)
    (hdeg : 0.0001 ≤ (entity2.x - entity1.x) * (entity2.x - entity1.x) +
      (entity2.y - entity1.y) * (entity2.y - entity1.y)) :
    Collision.handle_collision entity1 entity2 coef = (entity1, entity2) := by
  simp only [Collision.handle_collision]
  rw [if_neg (not_lt.mpr hdeg),
    if_neg (fun hc => absurd hc.1 (not_lt.mpr hm1)),
    if_neg (not_lt.mpr hm1), if_neg (not_lt.mpr hm2)]

/-- Claim C10, witness: two overlapping mass-0 entities one unit apart (the
pair passes the collision test since their radii sum to 2) are returned
unchanged. -/
theorem C10_witness :
    (0.0001 : ℝ) ≤ (1 - 0) * (1 - 0) + (0 - 0) * (0 - 0) ∧
    Collision.check_collision 0 0 1 1 0 1 ∧
    Collision.handle_collision ⟨0, 0, 0, 0, 0, 0, true, 1⟩
        ⟨1, 0, 0, 0, 0, 0, true, 1⟩ 0.8 =
      (⟨0, 0, 0, 0, 0, 0, true, 1⟩, ⟨1, 0, 0, 0, 0, 0, true, 1⟩) := by
  refine ⟨by norm_num, ?_, ?_⟩
  · rw [Collision.check_collision]
    norm_num
  · exact C10_immovable_pair_unchanged ⟨0, 0, 0, 0, 0, 0, true, 1⟩
      ⟨1, 0, 0, 0, 0, 0, true, 1⟩ 0.8 (by norm_num) (by norm_num) (by norm_num)

/-- Claim C8: in a colliding, non-degenerate pair where exactly one entity
has positive mass, `_handle_collision` reflects the massive entity's velocity
about the collision normal and scales it by the restitution coefficient
(`v' = coef * (v - 2*(v.n)*n)`), pushes that entity out of the overlap, and
leaves the zero-mass entity entirely unchanged. -/
theorem C8_single_mass_reflection (entity1 entity2 : Entity)
    (coef d nx ny : ℝ)
    (hd : d = Real.sqrt ((entity2.x - entity1.x) * (entity2.x - entity1.x) +
        (entity2.y - entity1.y) * (entity2.y - entity1.y)))
    (hnx : nx = (entity2.x - entity1.x) / d)
    (hny : ny = (entity2.y - entity1.y) / d)
    (hdeg : ¬((entity2.x - entity1.x) * (entity2.x - entity1.x) +
        (entity2.y - entity1.y) * (entity2.y - entity1.y) < 0.0001))
    (_hcol : (entity2.x - entity1.x) * (entity2.x - entity1.x) +
        (entity2.y - entity1.y) * (entity2.y - entity1.y) ≤
      (entity1.radius + entity2.radius) * (entity1.radius + entity2.radius)) :
    (0 < entity1.mass → entity2.mass ≤ 0 →
      Collision.handle_collision entity1 entity2 coef =
        ({ entity1 with
            x := entity1.x - nx * (entity1.radius + entity2.radius - d),
            y := entity1.y - ny * (entity1.radius + entity2.radius - d),
            vx := coef * (entity1.vx -
              2 * (entity1.vx * nx + entity1.vy * ny) * nx),
            vy := coef * (entity1.vy -
              2 * (entity1.vx * nx + entity1.vy * ny) * ny) },
          entity2)) ∧
    (entity1.mass ≤ 0 → 0 < entity2.mass →
      Collision.handle_collision entity1 entity2 coef =
        (entity1,
          { entity2 with
            x := entity2.x + nx * (entity1.radius + entity2.radius - d),
            y := entity2.y + ny * (entity1.radius + entity2.radius - d),
            vx := coef * (entity2.vx -
              2 * (entity2.vx * nx + entity2.vy * ny) * nx),
            vy := coef * (entity2.vy -
              2 * (entity2.vx * nx + entity2.vy * ny) * ny) })) := by
  subst hnx
  subst hny
  subst hd
  constructor
  · intro hm1 hm2
    simp only [Collision.handle_collision]
    rw [if_neg hdeg, if_neg (fun hc => absurd hc.2 (not_lt.mpr hm2)),
      if_pos hm1]
  · intro hm1 hm2
    simp only [Collision.handle_collision]
    rw [if_neg hdeg, if_neg (fun hc => absurd hc.1 (not_lt.mpr hm1)),
      if_neg (not_lt.mpr hm1), if_pos hm2]

/-- Claim C8, witness: a mass-1 body at the origin moving with velocity
`(0, -5)` toward a static mass-0 body directly below it at `(0, -1.5)`; with
restitution 0.8, its y-velocity flips sign and is scaled to 4, and the static
body is unchanged. -/
theorem C8_witness :
    0 < ((⟨0, 0, 0, -5, 1, 0, true, 1⟩ : Entity)).mass ∧
    ((⟨0, -1.5, 0, 0, 0, 0, true, 1⟩ : Entity)).mass ≤ 0 ∧
    Collision.handle_collision ⟨0, 0, 0, -5, 1, 0, true, 1⟩
        ⟨0, -1.5, 0, 0, 0, 0, true, 1⟩ 0.8 =
      (⟨0, 0.5, 0, 4, 1, 0, true, 1⟩, ⟨0, -1.5, 0, 0, 0, 0, true, 1⟩) := by
  have hd : (1.5 : ℝ) = Real.sqrt ((0 - 0) * (0 - 0) +
      ((-1.5 : ℝ) - 0) * ((-1.5 : ℝ) - 0)) := by
    rw [show ((0 : ℝ) - 0) * (0 - 0) + ((-1.5 : ℝ) - 0) * ((-1.5 : ℝ) - 0) =
        (1.5 : ℝ) ^ 2 by norm_num]
    rw [Real.sqrt_sq (by norm_num)]
  have happ := (C8_single_mass_reflection ⟨0, 0, 0, -5, 1, 0, true, 1⟩
      ⟨0, -1.5, 0, 0, 0, 0, true, 1⟩ 0.8 1.5 0 (-1) hd (by norm_num)
      (by norm_num) (by norm_num) (by norm_num)).1 (by norm_num) (by norm_num)
  refine ⟨by norm_num, by norm_num, ?_⟩
  rw [happ]
  norm_num [Prod.ext_iff, Entity.mk.injEq]

/-- Claim C4: elastic head-on collision with restitution 1.0 — entity A at
`(0,0)` with velocity `(1,0)`, mass 1, radius 1, entity B at `(1.5,0)` with
velocity `(-1,0)`, mass 1, radius 1.  One `resolve_collisions` pass exchanges
the velocities along the normal (`A.vx = -1`, `B.vx = 1`) and the corrected
centers are at least 2 apart (no residual overlap). -/
theorem C4_elastic_headon :
    Collision.resolve_collisions
        [⟨0, 0, 1, 0, 1, 0, true, 1⟩, ⟨1.5, 0, -1, 0, 1, 0, true, 1⟩] 1 =
      [⟨-0.25, 0, -1, 0, 1, 0, true, 1⟩, ⟨1.75, 0, 1, 0, 1, 0, true, 1⟩] ∧
    ((⟨-0.25, 0, -1, 0, 1, 0, true, 1⟩ : Entity)).vx = -1 ∧
    ((⟨1.75, 0, 1, 0, 1, 0, true, 1⟩ : Entity)).vx = 1 ∧
    2 ≤ Real.sqrt ((1.75 - (-0.25)) * (1.75 - (-0.25)) +
      ((0 : ℝ) - 0) * ((0 : ℝ) - 0)) := by
  have hd : (1.5 : ℝ) = Real.sqrt (((1.5 : ℝ) - 0) * ((1.5 : ℝ) - 0) +
      ((0 : ℝ) - 0) * ((0 : ℝ) - 0)) := by
    rw [show ((1.5 : ℝ) - 0) * ((1.5 : ℝ) - 0) + ((0 : ℝ) - 0) * ((0 : ℝ) - 0) =
        (1.5 : ℝ) ^ 2 by norm_num]
    rw [Real.sqrt_sq (by norm_num)]
  have HC0 := handle_collision_both_movable ⟨0, 0, 1, 0, 1, 0, true, 1⟩
      ⟨1.5, 0, -1, 0, 1, 0, true, 1⟩ 1 1.5 1 0 (-2) 2 (by norm_num)
      (by norm_num) (by norm_num) hd (by norm_num) (by norm_num)
      (by norm_num) (by norm_num) (by norm_num)
  have HC : Collision.handle_collision ⟨0, 0, 1, 0, 1, 0, true, 1⟩
      ⟨1.5, 0, -1, 0, 1, 0, true, 1⟩ 1 =
      (⟨-0.25, 0, -1, 0, 1, 0, true, 1⟩, ⟨1.75, 0, 1, 0, 1, 0, true, 1⟩) := by
    rw [HC0]
    norm_num [Prod.ext_iff, Entity.mk.injEq]
  have S0 : Collision.pair_step 1
      [⟨0, 0, 1, 0, 1, 0, true, 1⟩, ⟨1.5, 0, -1, 0, 1, 0, true, 1⟩] 0 1 =
      [⟨-0.25, 0, -1, 0, 1, 0, true, 1⟩, ⟨1.75, 0, 1, 0, 1, 0, true, 1⟩] := by
    show (if ((1 : ℝ) + 1) * ((1 : ℝ) + 1) <
        ((1.5 : ℝ) - 0) * ((1.5 : ℝ) - 0) + ((0 : ℝ) - 0) * ((0 : ℝ) - 0)
      then _ else _) = _
    rw [if_neg (by norm_num : ¬(((1 : ℝ) + 1) * ((1 : ℝ) + 1) <
        ((1.5 : ℝ) - 0) * ((1.5 : ℝ) - 0) + ((0 : ℝ) - 0) * ((0 : ℝ) - 0)))]
    rw [HC]
    rfl
  refine ⟨?_, by norm_num, by norm_num, ?_⟩
  · calc
      Collision.resolve_collisions
          [⟨0, 0, 1, 0, 1, 0, true, 1⟩, ⟨1.5, 0, -1, 0, 1, 0, true, 1⟩] 1 =
          Collision.loop_outer 1 [1] (Collision.pair_step 1
            [⟨0, 0, 1, 0, 1, 0, true, 1⟩, ⟨1.5, 0, -1, 0, 1, 0, true, 1⟩] 0 1) :=
        rfl
      _ = Collision.loop_outer 1 [1]
          [⟨-0.25, 0, -1, 0, 1, 0, true, 1⟩, ⟨1.75, 0, 1, 0, 1, 0, true, 1⟩] := by
        rw [S0]
      _ = [⟨-0.25, 0, -1, 0, 1, 0, true, 1⟩, ⟨1.75, 0, 1, 0, 1, 0, true, 1⟩] :=
        rfl
  · rw [show ((1.75 : ℝ) - (-0.25)) * ((1.75 : ℝ) - (-0.25)) +
        ((0 : ℝ) - 0) * ((0 : ℝ) - 0) = (2 : ℝ) ^ 2 by norm_num]
    rw [Real.sqrt_sq (by norm_num)]

end ClaimsCollision
